import Mathlib

/-!
Verification of the polycrude-from-plastic-waste flowsheet units.

The unit operations below are shallow embeddings of the repository's
Python classes (`DissolutionTank.py`, `H2_Mixer.py`, `PSA.py`,
`Conveyor.py`, `Conveyor_granulates.py`, `grinder.py`,
`Hydrocracking_reactor_modified.py`).  Streams are modelled as mass-flow
maps over the component set declared in `comoponents_function.py`,
together with a phase tag, a temperature and a pressure; the qsdsan
`imass` setter is plain assignment (the project's own documentation
records that a back-solved makeup flow can be stored negative without
any guard firing).  `Stream.mix_from` follows its library contract:
the receiving stream becomes the component-wise sum of the given
streams, ignoring its initial contents.  All numeric fields are `ℚ`.
-/

namespace Polycrude

/-- The component registry of `comoponents_function.py` (`create_components`). -/
inductive Comp
  | LDPE | polycrude | impurities | catalyst
  | C1H4 | C2H6 | C3H8 | C4H10 | C5H12 | C6H14
  | C7H16 | C8H18 | C9H20 | C10H22 | C11H24 | C12H26
  | H2 | H2O | O2
  deriving DecidableEq, Repr

/-- Phase tag of a stream: solid, liquid or gas. -/
inductive Phase
  | s | l | g
  deriving DecidableEq, Repr

/-- A material stream: component-wise mass flow, phase, temperature and
pressure. -/
structure Stream where
  mass : Comp → ℚ
  phase : Phase
  T : ℚ
  P : ℚ

/-- `s.imass[c] = v`: point update of one component's mass flow. -/
def setMass (s : Stream) (c : Comp) (v : ℚ) : Stream :=
  { s with mass := fun c' => if c' = c then v else s.mass c' }

@[simp] theorem setMass_same (s : Stream) (c : Comp) (v : ℚ) :
    (setMass s c v).mass c = v := by
  simp [setMass]

theorem setMass_other (s : Stream) (c c' : Comp) (v : ℚ) (h : c' ≠ c) :
    (setMass s c v).mass c' = s.mass c' := by
  simp [setMass, h]

@[simp] theorem setMass_phase (s : Stream) (c : Comp) (v : ℚ) :
    (setMass s c v).phase = s.phase := rfl

@[simp] theorem setMass_T (s : Stream) (c : Comp) (v : ℚ) :
    (setMass s c v).T = s.T := rfl

@[simp] theorem setMass_P (s : Stream) (c : Comp) (v : ℚ) :
    (setMass s c v).P = s.P := rfl

/-- Number of carbon atoms per molecule (chemical formulas from
`comoponents_function.py`: LDPE is C2500H5002, polycrude is the
pentatriacontane surrogate C35H72, impurities the carbon surrogate). -/
def carbonAtoms : Comp → ℚ
  | .LDPE => 2500
  | .polycrude => 35
  | .impurities => 1
  | .catalyst => 0
  | .C1H4 => 1
  | .C2H6 => 2
  | .C3H8 => 3
  | .C4H10 => 4
  | .C5H12 => 5
  | .C6H14 => 6
  | .C7H16 => 7
  | .C8H18 => 8
  | .C9H20 => 9
  | .C10H22 => 10
  | .C11H24 => 11
  | .C12H26 => 12
  | .H2 => 0
  | .H2O => 0
  | .O2 => 0

/-- Number of hydrogen atoms per molecule. -/
def hydrogenAtoms : Comp → ℚ
  | .LDPE => 5002
  | .polycrude => 72
  | .impurities => 0
  | .catalyst => 0
  | .C1H4 => 4
  | .C2H6 => 6
  | .C3H8 => 8
  | .C4H10 => 10
  | .C5H12 => 12
  | .C6H14 => 14
  | .C7H16 => 16
  | .C8H18 => 18
  | .C9H20 => 20
  | .C10H22 => 22
  | .C11H24 => 24
  | .C12H26 => 26
  | .H2 => 2
  | .H2O => 2
  | .O2 => 0

/-- Molar mass, kg/kmol, from the formula with atomic weights
C = 12.011, H = 1.008; fixed surrogates for the non-hydrocarbon
components (water 18.015, oxygen 31.998, the Al2O5Si catalyst 162.043).
Only the LDPE entry is ever consumed by the claims below (through
`Stream.imol`); the exact weights do not enter any claimed relation. -/
def molarMass : Comp → ℚ
  | .H2O => 18015/1000
  | .O2 => 31998/1000
  | .catalyst => 162043/1000
  | c => carbonAtoms c * (12011/1000) + hydrogenAtoms c * (1008/1000)

/-- `s.imol[c]`: molar flow derived from the stored mass flow. -/
def Stream.imol (s : Stream) (c : Comp) : ℚ :=
  s.mass c / molarMass c

/-- Error vocabulary of the specification (section 7).  The transliterated
run steps below never produce a `NegativeFlowError`: the source assigns
back-solved makeup flows unconditionally. -/
inductive FlowError
  | NegativeFlowError
  deriving DecidableEq, Repr

/-! ## Dissolution tank (`DissolutionTank.py`, `Dissolution_tank`) -/

/-- Configuration of `Dissolution_tank.__init__`. -/
structure Dissolution_tank where
  feedPW : ℚ
  LDPE_concentration : ℚ
  max_solubility : ℚ

/-- The streams written by `Dissolution_tank._run`: the mutated
`makeup_solvent` inlet and the two outlets. -/
structure DissolutionResult where
  makeup_solvent : Stream
  dissolution : Stream
  undissolved : Stream

/-- Transliteration of `Dissolution_tank._run`.  `feed`,
`makeup_solvent`, `recycled_solvent` are the inlets, `dissolution` and
`undissolved` the outlets, each carrying the state it holds when the
run step starts.  The makeup dodecane flow is assigned unconditionally
(no guard exists in the source), and in the full-dissolution branch the
undissolved outlet's LDPE entry is never written. -/
def Dissolution_tank.runResult (u : Dissolution_tank)
    (feed makeup_solvent recycled_solvent dissolution undissolved : Stream) :
    DissolutionResult :=
  let solvent_needed := u.feedPW / u.LDPE_concentration
  let makeup_solvent :=
    setMass makeup_solvent .C12H26 (solvent_needed - recycled_solvent.mass .C12H26)
  let ldpe_mass := feed.mass .LDPE
  let undissolved_mass := feed.mass .impurities
  let dodecane_mass := makeup_solvent.mass .C12H26 + recycled_solvent.mass .C12H26
  let max_ldpe_dissolved := u.max_solubility * dodecane_mass
  if ldpe_mass ≤ max_ldpe_dissolved then
    let dissolution := setMass dissolution .LDPE ldpe_mass
    let dissolution := setMass dissolution .C12H26 dodecane_mass
    let dissolution := { dissolution with phase := .l }
    let undissolved := setMass undissolved .impurities undissolved_mass
    let undissolved := { undissolved with phase := .s }
    let dissolution := { dissolution with T := recycled_solvent.T }
    let undissolved := { undissolved with T := 25 + 27315/100 }
    ⟨makeup_solvent, dissolution, undissolved⟩
  else
    let dissolution := setMass dissolution .LDPE max_ldpe_dissolved
    let dissolution := setMass dissolution .C12H26 dodecane_mass
    let dissolution := { dissolution with phase := .l }
    let dissolution := { dissolution with T := recycled_solvent.T }
    let undissolved := setMass undissolved .impurities undissolved_mass
    let undissolved := setMass undissolved .LDPE (ldpe_mass - max_ldpe_dissolved)
    let undissolved := { undissolved with phase := .s }
    let undissolved := { undissolved with T := 25 + 27315/100 }
    ⟨makeup_solvent, dissolution, undissolved⟩

/-- `Dissolution_tank._run` as a fallible step: the source raises no
error on any path, so the run always returns its result normally. -/
def Dissolution_tank.run (u : Dissolution_tank)
    (feed makeup_solvent recycled_solvent dissolution undissolved : Stream) :
    Except FlowError DissolutionResult :=
  .ok (u.runResult feed makeup_solvent recycled_solvent dissolution undissolved)

/-- An all-zero ambient stream, used as the freshly created state of a
stream at graph-build time. -/
def emptyStream : Stream :=
  { mass := fun _ => 0, phase := .l, T := 29815/100, P := 101325 }

/-! ## Hydrogen blending mixer (`H2_Mixer.py`, `Mixer`) -/

/-- The streams written by `Mixer._run`: the mutated `makeup_hydrogen`
inlet and the blended outlet. -/
structure MixerResult where
  makeup_hydrogen : Stream
  s_out : Stream

/-- Transliteration of `Mixer._run`.  The required outlet H2 flow is
read from `s_out` (set externally by the downstream demand), the makeup
inlet's H2 flow is back-solved and assigned unconditionally, then the
outlet becomes the mix of the two inlets (`mix_from` replaces the
outlet's contents with the component-wise sum of the inlets; the outlet
pressure is the minimum inlet pressure per the non-backflow rule).  The
vapor-fraction bookkeeping `_B` concerns only the convergence engine's
degree of freedom and involves the external VLE collaborator; it does
not touch any flow and is not modelled. -/
def Mixer.run (makeup_hydrogen recovered_hydrogen s_out : Stream) :
    Except FlowError MixerResult :=
  let required_H2_mass := s_out.mass .H2 - recovered_hydrogen.mass .H2
  let makeup_hydrogen := setMass makeup_hydrogen .H2 required_H2_mass
  let s_out :=
    { s_out with
      mass := fun c => makeup_hydrogen.mass c + recovered_hydrogen.mass c,
      P := min makeup_hydrogen.P recovered_hydrogen.P }
  .ok ⟨makeup_hydrogen, s_out⟩

/-! ## Pressure swing adsorption (`PSA.py`, `PSA`) -/

/-- Configuration of `PSA.__init__`. -/
structure PSA where
  T : ℚ
  P : ℚ
  efficiency : ℚ

/-- The two outlets written by `PSA._run`. -/
structure PSAResult where
  effluent : Stream
  hydrogen : Stream

/-- Transliteration of `PSA._run`: the recovery outlet's H2 flow is set
to `efficiency` times the inlet H2 flow, the effluent's H2 flow to the
complement, and the loop over every non-H2 component of the chemical
registry copies the whole inlet flow of that component to the effluent. -/
def PSA.run (u : PSA) (feed effluent hydrogen : Stream) : PSAResult :=
  let effluent := { effluent with P := 151685, T := u.T }
  let hydrogen := { hydrogen with P := u.P * (96/100), T := u.T }
  let hydrogen := setMass hydrogen .H2 (u.efficiency * feed.mass .H2)
  let hydrogen := { hydrogen with phase := .g }
  let hydrogen_notrecovered := (1 - u.efficiency) * feed.mass .H2
  let effluent := setMass effluent .H2 hydrogen_notrecovered
  let effluent :=
    { effluent with
      mass := fun c => if c = Comp.H2 then effluent.mass c else feed.mass c }
  let effluent := { effluent with phase := .g }
  ⟨effluent, hydrogen⟩

/-! ## Feed conveyor (`Conveyor.py`, `Conveyor`) -/

/-- Configuration of `Conveyor.__init__`. -/
structure Conveyor where
  T : ℚ
  P : ℚ
  feedPW : ℚ
  purity_factor : ℚ

/-- The streams written by `Conveyor._run`: the unit overwrites its own
inlet's LDPE and impurities flows from the plant capacity and purity
factor, then copies exactly those two flows to the outlet. -/
structure ConveyorResult where
  inlet : Stream
  outlet : Stream

/-- Transliteration of `Conveyor._run`. -/
def Conveyor.run (u : Conveyor) (inlet outlet : Stream) : ConveyorResult :=
  let inlet := setMass inlet .LDPE (u.feedPW * u.purity_factor)
  let inlet := setMass inlet .impurities (u.feedPW * (1 - u.purity_factor))
  let outlet := setMass outlet .LDPE (inlet.mass .LDPE)
  let outlet := setMass outlet .impurities (inlet.mass .impurities)
  ⟨inlet, outlet⟩

/-- Transliteration of `Grinder._run` (`grinder.py`): `copy_like` makes
the outlet a full copy of the inlet (flows, phase, temperature,
pressure); the prior outlet state is discarded. -/
def Grinder.run (inlet _outlet : Stream) : Stream := inlet

/-- Transliteration of `Conveyor_granulates._run`
(`Conveyor_granulates.py`): `copy_like`, as for the grinder. -/
def Conveyor_granulates.run (inlet _outlet : Stream) : Stream := inlet

/-! ## Conveyor design step (`Conveyor._design`,
`Conveyor_granulates._design`) -/

/-- Python-level failures that can escape the conveyor design step. -/
inductive PyError
  | ZeroDivisionError
  | TypeErrorNoneDivision
  | ValueErrorDensity
  deriving DecidableEq, Repr

/-- The sizing values stored in `design_results`. -/
structure ConveyorDesign where
  volumetric_flow : ℚ
  width : ℚ
  length : ℚ
  power : ℚ

/-- Transliteration of `Conveyor._design`.  `density` is `none` when the
property lookup leaves the inlet density undefined.  The statement order
of the source is kept: the division `mass_flow/density` is evaluated
first (raising `TypeError` on a missing density and `ZeroDivisionError`
on a zero one), and only afterwards does the source's
`if density == 0 or density is None: raise ValueError(...)` guard run.
`pow082` abstracts the floating-point fractional power
`mass_flow_lb_s ** 0.82`, which has no exact rational form; no claimed
behaviour depends on its value. -/
def Conveyor.design (pow082 : ℚ → ℚ) (mass_flow : ℚ) (density : Option ℚ)
    (mass_flow_lb_s : ℚ) : Except PyError ConveyorDesign :=
  match density with
  | none => .error .TypeErrorNoneDivision
  | some rho =>
    if rho = 0 then .error .ZeroDivisionError
    else
      let volumetric_flow := mass_flow / rho * (353147/10000)
      if rho = 0 ∨ False then .error .ValueErrorDensity
      else
        let volumetric_capacity : ℚ := 660
        let velocity : ℚ := 100
        let area := volumetric_flow * 60 / velocity
        let base_width : ℚ := 14
        let width := base_width * max 1 (volumetric_flow / volumetric_capacity)
        let length := area / (width / 12)
        let power := (58/100000) * pow082 mass_flow_lb_s * length * (7457/10000) * 24
        .ok ⟨volumetric_flow, width, length, power⟩

/-- Transliteration of `Conveyor_granulates._design`; its body is
line-for-line the same as `Conveyor._design`. -/
def Conveyor_granulates.design (pow082 : ℚ → ℚ) (mass_flow : ℚ)
    (density : Option ℚ) (mass_flow_lb_s : ℚ) : Except PyError ConveyorDesign :=
  match density with
  | none => .error .TypeErrorNoneDivision
  | some rho =>
    if rho = 0 then .error .ZeroDivisionError
    else
      let volumetric_flow := mass_flow / rho * (353147/10000)
      if rho = 0 ∨ False then .error .ValueErrorDensity
      else
        let volumetric_capacity : ℚ := 660
        let velocity : ℚ := 100
        let area := volumetric_flow * 60 / velocity
        let base_width : ℚ := 14
        let width := base_width * max 1 (volumetric_flow / volumetric_capacity)
        let length := area / (width / 12)
        let power := (58/100000) * pow082 mass_flow_lb_s * length * (7457/10000) * 24
        .ok ⟨volumetric_flow, width, length, power⟩

/-! ## Hydrocracking reactor (`Hydrocracking_reactor_modified.py`,
`Hydrocracking_reactor`) -/

/-- Configuration and mutable reaction state of `Hydrocracking_reactor`.
`X1`, `X2`, `X3` are the conversions of the three parallel reactions
`LDPE + H2 -> polycrude`, `LDPE + H2 -> C3H8`, `LDPE + H2 -> C4H10`
(`self.hydrocracking_reaction[i].X`); they are mutable between passes
and scenarios. -/
structure Hydrocracking_reactor where
  WHSV : ℚ
  catalyst_lifetime : ℚ
  hydrogen_P : ℚ
  hydrogen_excess : ℚ
  HCin_T : ℚ
  HCrxn_T : ℚ
  polycrude_yield : ℚ
  X1 : ℚ
  X2 : ℚ
  X3 : ℚ

/-- Stoichiometric coefficient of the product in `LDPE + H2 -> p` under
`correct_atomic_balance` (carbon balance: all 2500 carbons of one LDPE
molecule end up in the product). -/
def productCoeff (p : Comp) : ℚ := carbonAtoms .LDPE / carbonAtoms p

/-- Stoichiometric coefficient of H2 in `LDPE + H2 -> p` under
`correct_atomic_balance` (hydrogen balance: the product carries
`productCoeff p * hydrogenAtoms p` hydrogens, the LDPE supplies 5002,
and each H2 supplies two). -/
def h2Coeff (p : Comp) : ℚ :=
  (productCoeff p * hydrogenAtoms p - hydrogenAtoms .LDPE) / 2

/-- `Reaction.reactant_demand('H2', basis='mol')` for the reaction
`LDPE + H2 -> p` with conversion `X`: the stoichiometric H2 coefficient
multiplied by the conversion (per mole of LDPE fed). -/
def reactant_demand (p : Comp) (X : ℚ) : ℚ := h2Coeff p * X

/-- Transliteration of `Hydrocracking_reactor.update_reactions`: the
three conversions are recomputed from the current `polycrude_yield`. -/
def Hydrocracking_reactor.update_reactions (r : Hydrocracking_reactor) :
    Hydrocracking_reactor :=
  { r with
    X1 := r.polycrude_yield
    X2 := (1 - r.polycrude_yield) * (17/100)
    X3 := (1 - r.polycrude_yield) * (83/100) }

/-- Application of `self.hydrocracking_reaction` (a `ParallelReaction`
with molar basis) to a stream: each pathway converts its `X` fraction of
the LDPE moles present, consuming H2 and producing its product per the
atomically balanced stoichiometry; the parallel pathways all act on the
initial LDPE amount. -/
def Hydrocracking_reactor.react (r : Hydrocracking_reactor) (s : Stream) :
    Stream :=
  let n := s.imol .LDPE
  let s := setMass s .LDPE (s.mass .LDPE - (r.X1 + r.X2 + r.X3) * n * molarMass .LDPE)
  let s := setMass s .H2 (s.mass .H2 -
    (h2Coeff .polycrude * r.X1 + h2Coeff .C3H8 * r.X2 + h2Coeff .C4H10 * r.X3)
      * n * molarMass .H2)
  let s := setMass s .polycrude (s.mass .polycrude +
    productCoeff .polycrude * r.X1 * n * molarMass .polycrude)
  let s := setMass s .C3H8 (s.mass .C3H8 +
    productCoeff .C3H8 * r.X2 * n * molarMass .C3H8)
  let s := setMass s .C4H10 (s.mass .C4H10 +
    productCoeff .C4H10 * r.X3 * n * molarMass .C4H10)
  s

/-- Everything `Hydrocracking_reactor._run` computes, with the two
intermediate hydrogen values the run writes to the product stream:
`hc_assigned_H2` is the value of the assignment
`hc_out.imass['H2'] = hydrogen_rxned*(hydrogen_excess - 1)`, and
`hc_preReaction` is the product stream right after
`hc_out.mix_from(self.ins)` and right before the reaction is applied. -/
structure HCRunResult where
  reactor : Hydrocracking_reactor
  catalyst_in : Stream
  catalyst_out : Stream
  hydrogen_stoichiometric : ℚ
  hydrogen_rxned : ℚ
  hydrogen : Stream
  hc_assigned_H2 : ℚ
  hc_preReaction : Stream
  hc_out : Stream

/-- Transliteration of `Hydrocracking_reactor._run`.  The reaction
conversions are recomputed from the current `polycrude_yield` first;
the hydrogen inlet flow is back-solved from the stoichiometric demand;
`hc_out.mix_from(self.ins)` replaces the product stream's contents with
the component-wise sum of the three inlets (discarding the H2 value
assigned just before); then the reaction is applied, LDPE and catalyst
are zeroed, and the outlet conditions are set (the closing `vle` flash
redistributes phases at fixed temperature and pressure and leaves the
component flows unchanged). -/
def Hydrocracking_reactor.run (r0 : Hydrocracking_reactor)
    (heavy_oil hydrogen catalyst_in _hc_out _catalyst_out : Stream) :
    HCRunResult :=
  let r := r0.update_reactions
  let catalyst_in :=
    setMass catalyst_in .catalyst
      (heavy_oil.mass .LDPE / r.WHSV / r.catalyst_lifetime)
  let catalyst_in := { catalyst_in with phase := .s }
  let catalyst_out := catalyst_in
  let hydrogen_stoichiometric :=
    reactant_demand .polycrude r.X1 + reactant_demand .C3H8 r.X2 +
      reactant_demand .C4H10 r.X3
  let hydrogen_rxned := hydrogen_stoichiometric * heavy_oil.imol .LDPE * 2
  let hydrogen := setMass hydrogen .H2 (hydrogen_rxned * r.hydrogen_excess)
  let hydrogen := { hydrogen with phase := .g }
  let hc_out := { _hc_out with phase := .g }
  let hc_assigned_H2 := hydrogen_rxned * (r.hydrogen_excess - 1)
  let hc_out := setMass hc_out .H2 hc_assigned_H2
  let hc_out :=
    { hc_out with
      mass := fun c => heavy_oil.mass c + hydrogen.mass c + catalyst_in.mass c }
  let hc_preReaction := hc_out
  let hc_out := r.react hc_out
  let hc_out := setMass hc_out .LDPE 0
  let hc_out := setMass hc_out .catalyst 0
  let hc_out := { hc_out with P := heavy_oil.P, T := r.HCrxn_T }
  ⟨r, catalyst_in, catalyst_out, hydrogen_stoichiometric, hydrogen_rxned,
    hydrogen, hc_assigned_H2, hc_preReaction, hc_out⟩

/-- Outcome of the compressor block at the start of
`Hydrocracking_reactor._design`. -/
structure CompressorResult where
  compressed : Bool
  IC_in : Stream
  IC_out : Stream

/-- Transliteration of the owned-compressor block of
`Hydrocracking_reactor._design`: the compressor inlet is a copy of the
hydrogen inlet forced to gas phase; if its pressure already meets the
target `hydrogen_P` the outlet is a pass-through copy and the compressor
is not simulated, otherwise the isothermal compressor is simulated,
raising the stream to `hydrogen_P`. -/
def Hydrocracking_reactor.designCompressor (r : Hydrocracking_reactor)
    (hydrogen_in : Stream) : CompressorResult :=
  let IC_in := { hydrogen_in with phase := .g }
  if IC_in.P ≥ r.hydrogen_P then
    ⟨false, IC_in, IC_in⟩
  else
    let IC_out := { IC_in with P := r.hydrogen_P, phase := .g }
    ⟨true, IC_in, IC_out⟩

/-! ## Claim C1: dissolution-tank makeup solvent -/

/-- The recycled-solvent inlet used for the C1 counterexample:
110000 kg/h of dodecane, above the 104167 kg/h requirement. -/
def oversuppliedRecycle : Stream := setMass emptyStream .C12H26 110000

/-- The dissolution tank at its documented operating point:
feedPW = 10416.7 kg/h, LDPE concentration 0.1, max solubility 0.33. -/
def baseTank : Dissolution_tank := ⟨104167/10, 1/10, 33/100⟩

/-- C1 counterexample: at feedPW = 10416.7 kg/h and LDPE concentration
0.1 the required total solvent is 104167 kg/h; feeding 110000 kg/h of
recycled dodecane (an oversupply) makes the run return normally — no
`NegativeFlowError` is signalled — and the makeup inlet is stored with
the negative dodecane flow 104167 − 110000 = −5833 kg/h, refuting the
claim at this input. -/
theorem dissolution_oversupply_no_error_counterexample :
    ((baseTank.run emptyStream emptyStream oversuppliedRecycle emptyStream
        emptyStream).toOption.map
      fun r => r.makeup_solvent.mass .C12H26) = some (-5833) ∧
    (-5833 : ℚ) < 0 := by
  constructor
  · norm_num [baseTank, oversuppliedRecycle, emptyStream, Dissolution_tank.run,
      Dissolution_tank.runResult, setMass, Except.toOption]
  · norm_num

/-- C1 (amended): whenever the recycled dodecane flow exceeds the
required total solvent `feedPW / LDPE_concentration`, the dissolution
run still proceeds normally (the source has no guard and raises no
`NegativeFlowError`) and the makeup inlet is stored with the negative
flow `required total − recycled`. -/
theorem dissolution_makeup_stored_unconditionally
    (u : Dissolution_tank)
    (feed makeup_solvent recycled_solvent dissolution undissolved : Stream)
    (hover : u.feedPW / u.LDPE_concentration < recycled_solvent.mass .C12H26) :
    ((u.run feed makeup_solvent recycled_solvent dissolution
        undissolved).toOption.map
      fun r => r.makeup_solvent.mass .C12H26) =
      some (u.feedPW / u.LDPE_concentration -
        recycled_solvent.mass .C12H26) ∧
    u.feedPW / u.LDPE_concentration - recycled_solvent.mass .C12H26 < 0 := by
  constructor
  · simp only [Dissolution_tank.run, Dissolution_tank.runResult]
    split <;> simp [Except.toOption, setMass]
  · linarith

/-- Witness for C1's amended theorem at the counterexample input. -/
theorem dissolution_makeup_stored_unconditionally_witness :
    ((baseTank.run emptyStream emptyStream oversuppliedRecycle emptyStream
        emptyStream).toOption.map
      fun r => r.makeup_solvent.mass .C12H26) =
      some (baseTank.feedPW / baseTank.LDPE_concentration -
        oversuppliedRecycle.mass .C12H26) ∧
    baseTank.feedPW / baseTank.LDPE_concentration -
      oversuppliedRecycle.mass .C12H26 < 0 :=
  dissolution_makeup_stored_unconditionally baseTank emptyStream emptyStream
    oversuppliedRecycle emptyStream emptyStream (by norm_num [baseTank,
      oversuppliedRecycle, setMass, emptyStream])

/-! ## Claim C2: hydrogen blending-mixer makeup -/

/-- The demand-carrying outlet used for the C2 counterexample: the
downstream demand fixes 1 kg/h of H2. -/
def demandOutlet : Stream := setMass emptyStream .H2 1

/-- The recovered-hydrogen inlet used for the C2 counterexample:
2 kg/h of H2, above the 1 kg/h required outlet flow. -/
def richRecovery : Stream := setMass emptyStream .H2 2

/-- C2 counterexample: with required outlet H2 flow O = 1 kg/h and
recovered-hydrogen inlet K = 2 kg/h, the mixer run returns normally —
no `NegativeFlowError` — and writes the negative flow
O − K = −1 kg/h to the makeup inlet, refuting the claim at this
input. -/
theorem mixer_negative_makeup_counterexample :
    ((Mixer.run emptyStream richRecovery demandOutlet).toOption.map
      fun r => r.makeup_hydrogen.mass .H2) = some (-1) ∧
    (-1 : ℚ) < 0 := by
  constructor
  · norm_num [Mixer.run, demandOutlet, richRecovery, emptyStream, setMass,
      Except.toOption]
  · norm_num

/-- C2 (amended): the mixer back-solves the makeup H2 flow as
`O − K` and writes it to the makeup inlet unconditionally; when
`O ≥ K` the stored flow is exactly `O − K`, and when `O < K` the run
still proceeds normally (no `NegativeFlowError` is raised in the
source) with a negative flow stored on the makeup inlet. -/
theorem mixer_makeup_written_unconditionally
    (makeup_hydrogen recovered_hydrogen s_out : Stream) :
    ((Mixer.run makeup_hydrogen recovered_hydrogen s_out).toOption.map
      fun r => r.makeup_hydrogen.mass .H2) =
      some (s_out.mass .H2 - recovered_hydrogen.mass .H2) ∧
    (s_out.mass .H2 < recovered_hydrogen.mass .H2 →
      s_out.mass .H2 - recovered_hydrogen.mass .H2 < 0) := by
  constructor
  · simp [Mixer.run, Except.toOption, setMass]
  · intro h
    linarith

/-- Witness for C2's amended theorem at the counterexample input. -/
theorem mixer_makeup_written_unconditionally_witness :
    ((Mixer.run emptyStream richRecovery demandOutlet).toOption.map
      fun r => r.makeup_hydrogen.mass .H2) =
      some (demandOutlet.mass .H2 - richRecovery.mass .H2) ∧
    (demandOutlet.mass .H2 < richRecovery.mass .H2 →
      demandOutlet.mass .H2 - richRecovery.mass .H2 < 0) :=
  mixer_makeup_written_unconditionally emptyStream richRecovery demandOutlet

/-! ## Claim C3: dissolution branch selection and mass balance -/

/-- A plant feed for witnesses: 5000 kg/h LDPE with 300 kg/h
impurities. -/
def smallFeed : Stream := setMass (setMass emptyStream .LDPE 5000) .impurities 300

/-- A saturating plant feed for witnesses: 90000 kg/h LDPE with
300 kg/h impurities (above the 34375.11 kg/h solubility cap of
`baseTank`). -/
def bigFeed : Stream := setMass (setMass emptyStream .LDPE 90000) .impurities 300

/-- A recycled-solvent inlet for witnesses: 50000 kg/h of dodecane at
393.15 K. -/
def warmRecycle : Stream :=
  { setMass emptyStream .C12H26 50000 with T := 39315/100 }

/-- C3: starting from an undissolved outlet that holds no LDPE (its
freshly created state), one dissolution run with fed LDPE mass `S` and
total available solvent `D = feedPW / LDPE_concentration` (makeup plus
recycle always reconstitute the required total) dissolves
`min S (max_solubility*D)`: below the cap the dissolved outlet carries
all of `S` and the undissolved outlet none; above it the dissolved
outlet carries the cap and the undissolved outlet the excess; the
dissolved outlet is liquid at the recycle temperature, the undissolved
outlet solid at ambient 298.15 K, and the two outlets' LDPE flows sum
to `S` exactly. -/
theorem dissolution_branch_mass_balance
    (u : Dissolution_tank)
    (feed makeup_solvent recycled_solvent dissolution undissolved : Stream)
    (hS : 0 ≤ feed.mass .LDPE)
    (hfresh : undissolved.mass .LDPE = 0)
    (r : DissolutionResult)
    (hr : u.runResult feed makeup_solvent recycled_solvent dissolution
      undissolved = r) :
    (feed.mass .LDPE ≤
        u.max_solubility * (u.feedPW / u.LDPE_concentration) →
      r.dissolution.mass .LDPE = feed.mass .LDPE ∧
        r.undissolved.mass .LDPE = 0) ∧
    (u.max_solubility * (u.feedPW / u.LDPE_concentration) <
        feed.mass .LDPE →
      r.dissolution.mass .LDPE =
          u.max_solubility * (u.feedPW / u.LDPE_concentration) ∧
        r.undissolved.mass .LDPE =
          feed.mass .LDPE -
            u.max_solubility * (u.feedPW / u.LDPE_concentration)) ∧
    r.dissolution.phase = .l ∧
    r.dissolution.T = recycled_solvent.T ∧
    r.undissolved.phase = .s ∧
    r.undissolved.T = 29815/100 ∧
    r.dissolution.mass .LDPE + r.undissolved.mass .LDPE =
      feed.mass .LDPE := by
  subst hr
  have hD :
      u.feedPW / u.LDPE_concentration - recycled_solvent.mass .C12H26 +
        recycled_solvent.mass .C12H26 = u.feedPW / u.LDPE_concentration := by
    ring
  unfold Dissolution_tank.runResult
  simp only [setMass_same, hD]
  split
  · rename_i hle
    refine ⟨fun _ => ⟨?_, ?_⟩, fun hgt => absurd hle (not_le.mpr hgt), ?_, ?_,
      ?_, ?_, ?_⟩ <;>
      simp [setMass, hfresh] <;> ring_nf
  · rename_i hgt
    rw [not_le] at hgt
    refine ⟨fun hle => absurd hle (not_le.mpr hgt), fun _ => ⟨?_, ?_⟩, ?_, ?_,
      ?_, ?_, ?_⟩ <;>
      simp [setMass] <;> ring_nf

/-- Witness for C3 in the full-dissolution branch, at the documented
operating point with a 5000 kg/h LDPE feed against the 34375.11 kg/h
cap. -/
theorem dissolution_branch_mass_balance_witness :
    (baseTank.runResult smallFeed emptyStream warmRecycle emptyStream
        emptyStream).dissolution.mass .LDPE = 5000 ∧
    (baseTank.runResult smallFeed emptyStream warmRecycle emptyStream
        emptyStream).undissolved.mass .LDPE = 0 := by
  have h := dissolution_branch_mass_balance baseTank smallFeed emptyStream
    warmRecycle emptyStream emptyStream
    (by simp [smallFeed, emptyStream, setMass])
    (by simp [emptyStream])
    _ rfl
  have hb := h.1 (by simp [smallFeed, baseTank, emptyStream, setMass]; norm_num)
  have hfeed : smallFeed.mass .LDPE = 5000 := by
    simp [smallFeed, emptyStream, setMass]
  exact ⟨hfeed ▸ hb.1, hb.2⟩

/-! ## Claim C10: the full-dissolution branch never writes the
undissolved outlet's LDPE flow -/

/-- An undissolved-outlet state left over from an earlier
saturation-limited pass: it still carries 7 kg/h of LDPE. -/
def staleUndissolved : Stream := setMass emptyStream .LDPE 7

/-- C10: in the full-dissolution branch (fed LDPE at most the
solubility cap) the run writes only the impurities flow, the phase and
the temperature of the undissolved outlet; every other component flow —
the LDPE flow in particular — retains the value it held before the
call, so the outlet's LDPE is zero after the run exactly when it was
zero before. -/
theorem dissolution_branchA_frame_effect
    (u : Dissolution_tank)
    (feed makeup_solvent recycled_solvent dissolution undissolved : Stream)
    (hA : feed.mass .LDPE ≤
      u.max_solubility * (u.feedPW / u.LDPE_concentration))
    (r : DissolutionResult)
    (hr : u.runResult feed makeup_solvent recycled_solvent dissolution
      undissolved = r) :
    r.undissolved.mass .LDPE = undissolved.mass .LDPE ∧
    (∀ c, c ≠ Comp.impurities → r.undissolved.mass c = undissolved.mass c) ∧
    r.undissolved.mass .impurities = feed.mass .impurities ∧
    r.undissolved.phase = .s ∧
    r.undissolved.T = 29815/100 ∧
    (r.undissolved.mass .LDPE = 0 ↔ undissolved.mass .LDPE = 0) := by
  subst hr
  have hD :
      u.feedPW / u.LDPE_concentration - recycled_solvent.mass .C12H26 +
        recycled_solvent.mass .C12H26 = u.feedPW / u.LDPE_concentration := by
    ring
  unfold Dissolution_tank.runResult
  simp only [setMass_same, hD]
  rw [if_pos hA]
  refine ⟨?_, fun c hc => ?_, ?_, rfl, by norm_num, ?_⟩
  · simp [setMass]
  · simp [setMass, hc]
  · simp [setMass]
  · simp [setMass]

/-- Witness for C10 at the documented operating point: a stale
undissolved outlet carrying 7 kg/h LDPE still carries exactly 7 kg/h
after a full-dissolution run. -/
theorem dissolution_branchA_frame_effect_witness :
    (baseTank.runResult smallFeed emptyStream warmRecycle emptyStream
        staleUndissolved).undissolved.mass .LDPE = 7 := by
  have h := dissolution_branchA_frame_effect baseTank smallFeed emptyStream
    warmRecycle emptyStream staleUndissolved
    (by simp [smallFeed, baseTank, emptyStream, setMass]; norm_num) _ rfl
  have : staleUndissolved.mass .LDPE = 7 := by
    simp [staleUndissolved, emptyStream, setMass]
  exact h.1.trans this

/-! ## Claim C5: PSA idealized split -/

/-- A PSA feed for witnesses: 40 kg/h H2 with 10 kg/h propane and
15 kg/h butane carried along. -/
def psaFeed : Stream :=
  setMass (setMass (setMass emptyStream .H2 40) .C3H8 10) .C4H10 15

/-- The PSA at its documented operating point: 323.15 K, 15 bar, 85 %
hydrogen recovery. -/
def basePSA : PSA := ⟨32315/100, 1500000, 85/100⟩

/-- C5: starting from a freshly created (all-zero) hydrogen-recovery
outlet, one PSA run routes `efficiency` times the inlet H2 mass to the
recovery outlet — H2 being its only nonzero component — while the
effluent outlet receives the remaining `1 − efficiency` share of the
inlet H2 together with the whole inlet mass of every non-H2 component;
the two outlets' H2 flows sum exactly to the inlet H2 flow. -/
theorem psa_ideal_split (u : PSA) (feed effluent hydrogen : Stream)
    (hfresh : ∀ c, c ≠ Comp.H2 → hydrogen.mass c = 0)
    (r : PSAResult) (hr : u.run feed effluent hydrogen = r) :
    r.hydrogen.mass .H2 = u.efficiency * feed.mass .H2 ∧
    (∀ c, c ≠ Comp.H2 → r.hydrogen.mass c = 0) ∧
    r.effluent.mass .H2 = (1 - u.efficiency) * feed.mass .H2 ∧
    (∀ c, c ≠ Comp.H2 → r.effluent.mass c = feed.mass c) ∧
    r.hydrogen.mass .H2 + r.effluent.mass .H2 = feed.mass .H2 := by
  subst hr
  unfold PSA.run
  refine ⟨by simp, fun c hc => ?_, by simp [setMass], fun c hc => ?_, ?_⟩
  · simpa [setMass, hc] using hfresh c hc
  · simp [setMass, hc]
  · simp [setMass]
    ring

/-- Witness for C5 at the documented PSA operating point and a feed of
40 kg/h H2, 10 kg/h propane and 15 kg/h butane. -/
theorem psa_ideal_split_witness :
    (basePSA.run psaFeed emptyStream emptyStream).hydrogen.mass .H2 = 34 ∧
    (basePSA.run psaFeed emptyStream emptyStream).hydrogen.mass .C3H8 = 0 ∧
    (basePSA.run psaFeed emptyStream emptyStream).effluent.mass .H2 = 6 ∧
    (basePSA.run psaFeed emptyStream emptyStream).effluent.mass .C3H8 = 10 ∧
    (basePSA.run psaFeed emptyStream emptyStream).effluent.mass .C4H10 = 15 := by
  have h := psa_ideal_split basePSA psaFeed emptyStream emptyStream
    (fun c _ => by simp [emptyStream]) _ rfl
  refine ⟨?_, ?_, ?_, ?_, ?_⟩
  · rw [h.1]
    simp [basePSA, psaFeed, emptyStream, setMass]
    norm_num
  · exact h.2.1 .C3H8 (by simp)
  · rw [h.2.2.1]
    simp [basePSA, psaFeed, emptyStream, setMass]
    norm_num
  · rw [h.2.2.2.1 .C3H8 (by simp)]
    simp [psaFeed, emptyStream, setMass]
  · rw [h.2.2.2.1 .C4H10 (by simp)]
    simp [psaFeed, emptyStream, setMass]

/-! ## Claim C9: pass-through units -/

/-- The feed conveyor at its documented operating point:
feedPW = 10416.7 kg/h, purity factor 0.95. -/
def baseConveyor : Conveyor := ⟨29815/100, 101325, 104167/10, 19/20⟩

/-- C9: the feed conveyor's run copies each component flow of its
(recomputed) inlet to its outlet — exactly, for every component, as
long as the unhandled components agree beforehand (both streams start
empty) — and the grinder and granulate conveyor copy their inlet stream
wholesale; at feedPW = 10416.7 kg/h and purity factor 0.95 the conveyor
carries 9895.865 kg/h LDPE and 520.835 kg/h impurities through
unchanged. -/
theorem passthrough_units_identity (u : Conveyor) (inlet outlet : Stream)
    (hclean : ∀ c, c ≠ Comp.LDPE → c ≠ Comp.impurities →
      outlet.mass c = inlet.mass c)
    (gin gout grin grout : Stream)
    (r : ConveyorResult) (hr : u.run inlet outlet = r) :
    (∀ c, r.outlet.mass c = r.inlet.mass c) ∧
    Grinder.run gin gout = gin ∧
    Conveyor_granulates.run grin grout = grin ∧
    (u.feedPW = 104167/10 → u.purity_factor = 19/20 →
      r.inlet.mass .LDPE = 9895865/1000 ∧
      r.inlet.mass .impurities = 520835/1000 ∧
      r.outlet.mass .LDPE = 9895865/1000 ∧
      r.outlet.mass .impurities = 520835/1000) := by
  subst hr
  unfold Conveyor.run
  refine ⟨fun c => ?_, rfl, rfl, fun hF hp => ?_⟩
  · by_cases hL : c = Comp.LDPE
    · subst hL
      simp [setMass]
    · by_cases hI : c = Comp.impurities
      · subst hI
        simp [setMass]
      · simp [setMass, hL, hI, hclean c hL hI]
  · refine ⟨?_, ?_, ?_, ?_⟩ <;> simp [setMass, hF, hp] <;> norm_num

/-- Witness for C9: the conveyor at the documented operating point with
freshly created inlet and outlet streams. -/
theorem passthrough_units_identity_witness :
    (baseConveyor.run emptyStream emptyStream).outlet.mass .LDPE =
      9895865/1000 ∧
    (baseConveyor.run emptyStream emptyStream).outlet.mass .impurities =
      520835/1000 := by
  have h := passthrough_units_identity baseConveyor emptyStream emptyStream
    (fun c _ _ => rfl) emptyStream emptyStream emptyStream emptyStream _ rfl
  have hb := h.2.2.2 (by simp [baseConveyor]) (by simp [baseConveyor])
  exact ⟨hb.2.2.1, hb.2.2.2⟩

/-! ## Claim C8: conditional compressor bypass in the reactor design -/

/-- The hydrocracking reactor at its constructor defaults: WHSV 1,
catalyst lifetime 3·7920 h, hydrogen pressure 1039.7·6894.76 Pa,
hydrogen excess 5.556, inlet 667.15 K, reaction 724.15 K, polycrude
yield 0.9; the reaction conversions start at the values the constructor
computes from that yield. -/
def baseReactor : Hydrocracking_reactor :=
  { WHSV := 1
    catalyst_lifetime := 3 * 7920
    hydrogen_P := (10397/10) * (689476/100)
    hydrogen_excess := 5556/1000
    HCin_T := 394 + 27315/100
    HCrxn_T := 451 + 27315/100
    polycrude_yield := 9/10
    X1 := 9/10
    X2 := (1 - 9/10) * (17/100)
    X3 := (1 - 9/10) * (83/100) }

/-- A low-pressure hydrogen inlet for the C8 witness: 50 kg/h of H2 at
200000 Pa, far below the reactor's hydrogen pressure target. -/
def lowPressureH2 : Stream :=
  { setMass emptyStream .H2 50 with phase := .g, P := 200000 }

/-- C8: in the reactor's design step the owned compressor is simulated
(raising the hydrogen stream to the configured reactor hydrogen
pressure) exactly when the hydrogen stream's pressure is below that
target; otherwise the compressor outlet is a verbatim pass-through copy
of its inlet and no compression happens. -/
theorem reactor_compressor_conditional (r : Hydrocracking_reactor)
    (h2stream : Stream)
    (res : CompressorResult) (hres : r.designCompressor h2stream = res) :
    (res.compressed = true ↔ h2stream.P < r.hydrogen_P) ∧
    (r.hydrogen_P ≤ h2stream.P → res.IC_out = res.IC_in) ∧
    (h2stream.P < r.hydrogen_P →
      res.IC_out.P = r.hydrogen_P ∧
      res.IC_out.mass = res.IC_in.mass ∧
      res.IC_out.T = res.IC_in.T ∧
      res.IC_out.phase = .g) := by
  subst hres
  unfold Hydrocracking_reactor.designCompressor
  by_cases hP : r.hydrogen_P ≤ h2stream.P
  · rw [if_pos hP]
    refine ⟨?_, fun _ => rfl, fun hlt => absurd hP (not_le.mpr hlt)⟩
    simp [not_lt.mpr hP]
  · rw [if_neg hP]
    rw [not_le] at hP
    exact ⟨by simp [hP], fun hle => absurd hle (not_le.mpr hP),
      fun _ => ⟨rfl, rfl, rfl, rfl⟩⟩

/-- Witness for C8: at the defaults, a 200000 Pa hydrogen stream is
below the 7168435.172 Pa target, so the compressor runs and its outlet
leaves at the target pressure. -/
theorem reactor_compressor_conditional_witness :
    (baseReactor.designCompressor lowPressureH2).compressed = true ∧
    (baseReactor.designCompressor lowPressureH2).IC_out.P =
      baseReactor.hydrogen_P := by
  have h := reactor_compressor_conditional baseReactor lowPressureH2 _ rfl
  have hlt : lowPressureH2.P < baseReactor.hydrogen_P := by
    norm_num [lowPressureH2, emptyStream, baseReactor, setMass]
  exact ⟨h.1.mpr hlt, (h.2.2 hlt).1⟩

/-! ## Claim C7: density guard in the conveyor design step -/

/-- Whether a conveyor design outcome is the configured
`ValueError('Density is not defined, ...')`. -/
def triggersDensityValueError (e : Except PyError ConveyorDesign) : Bool :=
  match e with
  | .error .ValueErrorDensity => true
  | _ => false

/-- C7 is false of the code: with a zero (or missing) inlet density the
division `mass_flow/density` is evaluated before the density guard, so
the design step dies with a `ZeroDivisionError` (or `TypeError`) at the
division — the volumetric flow computation does execute — and the
configured fatal configuration error (`ValueError`) is unreachable on
every input, in both conveyor classes. -/
theorem conveyor_density_check_after_division :
    Conveyor.design id 100 (some 0) 10 = .error .ZeroDivisionError ∧
    Conveyor_granulates.design id 100 (some 0) 10 =
      .error .ZeroDivisionError ∧
    Conveyor.design id 100 none 10 = .error .TypeErrorNoneDivision ∧
    Conveyor_granulates.design id 100 none 10 =
      .error .TypeErrorNoneDivision ∧
    (∀ f m d s, triggersDensityValueError (Conveyor.design f m d s) = false) ∧
    (∀ f m d s,
      triggersDensityValueError (Conveyor_granulates.design f m d s) =
        false) := by
  refine ⟨by simp [Conveyor.design], by simp [Conveyor_granulates.design],
    rfl, rfl, fun f m d s => ?_, fun f m d s => ?_⟩
  · match d with
    | none => rfl
    | some rho =>
      by_cases h : rho = 0
      · simp [Conveyor.design, h, triggersDensityValueError]
      · simp [Conveyor.design, h, triggersDensityValueError]
  · match d with
    | none => rfl
    | some rho =>
      by_cases h : rho = 0
      · simp [Conveyor_granulates.design, h, triggersDensityValueError]
      · simp [Conveyor_granulates.design, h, triggersDensityValueError]

/-! ## Claim C4: reaction conversions and hydrogen-demand linearity -/

/-- C4: for every polycrude yield Y in [0,1], recomputing the reaction
network sets the three pathway conversions to Y, (1−Y)·0.17 and
(1−Y)·0.83, which sum to exactly 1; every run step re-applies this
update from the current yield (whatever conversions were stored
before); and at fixed yield the hydrogen demand computed by the run is
a homogeneous linear function of the LDPE mole flow fed — it equals a
feed-independent coefficient times the mole flow, and scaling the fed
LDPE scales the demand by the same factor. -/
theorem reactor_conversions_and_linearity
    (r : Hydrocracking_reactor)
    (h0 : 0 ≤ r.polycrude_yield) (h1 : r.polycrude_yield ≤ 1)
    (heavy_oil hydrogen catalyst_in hc_out catalyst_out : Stream) :
    (r.update_reactions.X1 = r.polycrude_yield ∧
      r.update_reactions.X2 = (1 - r.polycrude_yield) * (17/100) ∧
      r.update_reactions.X3 = (1 - r.polycrude_yield) * (83/100) ∧
      r.update_reactions.X1 + r.update_reactions.X2 +
        r.update_reactions.X3 = 1) ∧
    (r.run heavy_oil hydrogen catalyst_in hc_out catalyst_out).reactor =
      r.update_reactions ∧
    (r.run heavy_oil hydrogen catalyst_in hc_out
        catalyst_out).hydrogen_rxned =
      (2 * (reactant_demand .polycrude r.update_reactions.X1 +
        reactant_demand .C3H8 r.update_reactions.X2 +
        reactant_demand .C4H10 r.update_reactions.X3)) *
        heavy_oil.imol .LDPE ∧
    (∀ (a : ℚ) (hv : Stream), hv.mass .LDPE = a * heavy_oil.mass .LDPE →
      (r.run hv hydrogen catalyst_in hc_out catalyst_out).hydrogen_rxned =
        a * (r.run heavy_oil hydrogen catalyst_in hc_out
          catalyst_out).hydrogen_rxned) := by
  refine ⟨⟨rfl, rfl, rfl, ?_⟩, rfl, ?_, fun a hv ha => ?_⟩
  · simp only [Hydrocracking_reactor.update_reactions]
    ring
  · simp only [Hydrocracking_reactor.run]
    ring
  · simp only [Hydrocracking_reactor.run, Stream.imol, ha]
    ring

/-- Witness for C4 at the reactor defaults (yield 0.9): the recomputed
conversions sum to exactly 1. -/
theorem reactor_conversions_and_linearity_witness :
    baseReactor.update_reactions.X1 + baseReactor.update_reactions.X2 +
      baseReactor.update_reactions.X3 = 1 :=
  (reactor_conversions_and_linearity baseReactor (by norm_num [baseReactor])
    (by norm_num [baseReactor]) emptyStream emptyStream emptyStream
    emptyStream emptyStream).1.2.2.2

/-! ## Claim C6: hydrogen feed and the product stream before reaction -/

/-- A primary feed carrying exactly one kmol/h of LDPE (mass equal to
the LDPE molar mass). -/
def oneMolOil : Stream := setMass emptyStream .LDPE (molarMass .LDPE)

/-- C6 counterexample: at the reactor defaults with one kmol/h of LDPE
fed, the product stream's H2 content just before the reaction is
applied is `demand × excess-ratio` — the mix of the inlets overwrites
the earlier `demand × (excess-ratio − 1)` assignment — so the value the
claim asserts is strictly below the stream's actual pre-reaction H2
content. -/
theorem reactor_preReaction_H2_counterexample :
    (baseReactor.run oneMolOil emptyStream emptyStream emptyStream
        emptyStream).hydrogen_rxned * (baseReactor.hydrogen_excess - 1) <
      (baseReactor.run oneMolOil emptyStream emptyStream emptyStream
        emptyStream).hc_preReaction.mass .H2 := by
  simp [Hydrocracking_reactor.run, Hydrocracking_reactor.update_reactions,
    baseReactor, oneMolOil, emptyStream, setMass, Stream.imol, molarMass,
    reactant_demand, h2Coeff, productCoeff, carbonAtoms, hydrogenAtoms]
  norm_num

/-- C6 (amended): the reactor's actual hydrogen inlet flow equals the
stoichiometric hydrogen per mole of reactant (summed over the three
pathways) × reactant moles fed × 2 × the configured excess ratio, and
the run assigns `demand × (excess-ratio − 1)` to the product stream's
H2 — but that assignment is overwritten when the inlets are mixed into
the product stream, so immediately before the reaction is applied the
product stream's H2 equals the fed H2 (oil and catalyst contributions)
plus `demand × excess-ratio`. -/
theorem reactor_hydrogen_demand_and_mix
    (r : Hydrocracking_reactor)
    (heavy_oil hydrogen catalyst_in hc_out catalyst_out : Stream)
    (res : HCRunResult)
    (hres : r.run heavy_oil hydrogen catalyst_in hc_out catalyst_out = res) :
    res.hydrogen.mass .H2 =
      res.hydrogen_stoichiometric * heavy_oil.imol .LDPE * 2 *
        r.hydrogen_excess ∧
    res.hc_assigned_H2 = res.hydrogen_rxned * (r.hydrogen_excess - 1) ∧
    res.hc_preReaction.mass .H2 =
      heavy_oil.mass .H2 + res.hydrogen_rxned * r.hydrogen_excess +
        catalyst_in.mass .H2 := by
  subst hres
  unfold Hydrocracking_reactor.run
  refine ⟨by simp [Hydrocracking_reactor.update_reactions], rfl, ?_⟩
  simp [setMass, Hydrocracking_reactor.update_reactions]

/-- Witness for C6's amended theorem at the reactor defaults with one
kmol/h of LDPE fed and fresh hydrogen/catalyst streams. -/
theorem reactor_hydrogen_demand_and_mix_witness :
    (baseReactor.run oneMolOil emptyStream emptyStream emptyStream
        emptyStream).hydrogen.mass .H2 =
      (baseReactor.run oneMolOil emptyStream emptyStream emptyStream
          emptyStream).hydrogen_stoichiometric * oneMolOil.imol .LDPE * 2 *
        baseReactor.hydrogen_excess :=
  (reactor_hydrogen_demand_and_mix baseReactor oneMolOil emptyStream
    emptyStream emptyStream emptyStream _ rfl).1

end Polycrude
